import Mathlib

/-
  Verification of the lazy-tensor alias/view update-tracking core
  (torch/csrc/lazy/core/lazy_view.cpp and the Scalar TS node).

  The symbolic IR `Value` is modelled as an inductive term: node
  construction (`ReuseOrMakeNode<T>`) builds a structural term, so two
  structurally equal nodes are the same term, which matches the
  hash-consing reuse semantics.  Fatal assertions (`TORCH_CHECK`,
  `TORCH_INTERNAL_ASSERT(false, ...)`) are modelled as `Except.error`:
  the process aborts, so no state after the error is observable.
  View kinds are modelled as raw `Nat` codes, mirroring the C++ enum
  whose underlying integer can in principle hold a value outside the
  declared variants, which is exactly what the defensive `default`
  branches of both dispatch switches guard against.
-/

namespace TorchLazy

/-- Shapes are modelled by their dimension-size lists; the scalar dtype
carried by `torch::lazy::Shape` plays no role in the view core. -/
abbrev ShapeT := List Int

/-- Symbolic IR values: one constructor per node kind the view core builds,
plus opaque leaves standing for externally produced IR values. -/
inductive Value where
  | leaf (id : Nat)
  | select (src : Value) (dim start stop stride : Int)
  | narrow (src : Value) (indices : List Int) (sizes : List Int)
  | permute (src : Value) (dims : List Int)
  | view (src : Value) (sizes : List Int)
  | resize (src : Value) (sizes : List Int)
  | squeeze (src : Value) (dim : Int)
  | unsqueeze (src : Value) (dim : Int)
  | asStrided (src : Value) (sizes : List Int) (stride : List Int) (offset : Int)
  | diagonal (src : Value) (offset dim1 dim2 : Int)
  | selectViewUpdate (target : Value) (src : Value) (dim start stop stride : Int)
  | narrowViewUpdate (target : Value) (src : Value) (indices : List Int)
  | asStridedViewUpdate (target : Value) (src : Value) (sizes : List Int)
      (stride : List Int) (offset : Int)
  | diagonalViewUpdate (target : Value) (src : Value) (offset dim1 dim2 : Int)
  deriving DecidableEq, Repr

/-- `ViewInfo::Type::kSelect` as its underlying enum value. -/
def kSelect : Nat := 0
/-- `ViewInfo::Type::kNarrow`. -/
def kNarrow : Nat := 1
/-- `ViewInfo::Type::kNoOp`. -/
def kNoOp : Nat := 2
/-- `ViewInfo::Type::kPermute`. -/
def kPermute : Nat := 3
/-- `ViewInfo::Type::kReshape`. -/
def kReshape : Nat := 4
/-- `ViewInfo::Type::kResize`. -/
def kResize : Nat := 5
/-- `ViewInfo::Type::kSqueeze`. -/
def kSqueeze : Nat := 6
/-- `ViewInfo::Type::kUnsqueeze`. -/
def kUnsqueeze : Nat := 7
/-- `ViewInfo::Type::kAsStrided`. -/
def kAsStrided : Nat := 8
/-- `ViewInfo::Type::kDiagonal`. -/
def kDiagonal : Nat := 9

/-- `SelectInfo {dim, start, end, stride}` (the C++ field `end` is spelled
`stop` because `end` is a Lean keyword). -/
structure SelectInfo where
  dim : Int
  start : Int
  stop : Int
  stride : Int
  deriving DecidableEq, Repr

/-- `AsStridedInfo {stride, offset}`. -/
structure AsStridedInfo where
  stride : List Int
  offset : Int
  deriving DecidableEq, Repr

/-- `DiagonalInfo {offset, dim1, dim2}`. -/
structure DiagonalInfo where
  offset : Int
  dim1 : Int
  dim2 : Int
  deriving DecidableEq, Repr

/-- `ViewInfo`: kind, resulting shape, narrow indices, source shape and the
kind-specific optional payloads, with the C++ defaults for fields a given
constructor does not set.  Equality is structural, as the spec requires. -/
structure ViewInfo where
  view_type : Nat
  shape : ShapeT
  indices : List Int
  source_shape : ShapeT
  select : Option SelectInfo
  permutation : List Int
  squeeze_index : Int
  as_strided : Option AsStridedInfo
  diagonal : Option DiagonalInfo
  deriving DecidableEq, Repr

/-- Modelled from the spec: `Permute::MakePermuteShape` (declared in
view_ops/permute.h, not part of the provided sources) derives the output
shape by applying the permutation to the source dims. -/
def MakePermuteShape (source_shape : ShapeT) (permutation : List Int) : ShapeT :=
  permutation.map fun p => source_shape.getD p.toNat 0

/-- Modelled from the spec: `Select::MakeSelectShape` (declared in
view_ops/select.h, not part of the provided sources) computes the output
shape deterministically from the source shape and dim/start/end/stride,
replacing the selected dim's size by the number of selected elements. -/
def MakeSelectShape (source_shape : ShapeT) (dim start stop stride : Int) : ShapeT :=
  source_shape.mapIdx fun i s =>
    if (i : Int) = dim then (stop - start + stride - 1) / stride else s

/-- Modelled from the spec: `Diagonal::MakeDiagonalShape` (declared in
view_ops/diagonal.h, not part of the provided sources) removes dim1 and
dim2 from the source shape and appends the diagonal length derived from
the offset. -/
def MakeDiagonalShape (source_shape : ShapeT) (offset dim1 dim2 : Int) : ShapeT :=
  let d1 := source_shape.getD dim1.toNat 0
  let d2 := source_shape.getD dim2.toNat 0
  let diag_size :=
    if 0 ≤ offset then max 0 (min d1 (d2 - offset)) else max 0 (min (d1 + offset) d2)
  let rest := (source_shape.mapIdx fun i s => ((i : Int), s)).filterMap
    fun p => if p.1 = dim1 ∨ p.1 = dim2 then none else some p.2
  rest ++ [diag_size]

/-- Modelled from the spec: `InversePermutation` (helpers.h, not part of the
provided sources) returns the inverse permutation, i.e. the permutation q
with q[p[i]] = i. -/
def InversePermutation (permutation : List Int) : List Int :=
  (List.range permutation.length).map fun i => (permutation.indexOf (i : Int) : Int)

/-- `ViewInfo::ViewInfo(Type, Shape, Shape)`: the payload-free constructor;
`indices` is initialized to one zero per source dimension.  No check. -/
def ViewInfo.mkBase (view_type : Nat) (shape source_shape : ShapeT) : ViewInfo :=
  ⟨view_type, shape, List.replicate source_shape.length 0, source_shape,
    none, [], 0, none, none⟩

/-- `ViewInfo::ViewInfo(Type, Shape, Shape, int64_t sqi)`:
`TORCH_CHECK(view_type == Type::kSqueeze)`. -/
def ViewInfo.mkSqueeze (view_type : Nat) (shape source_shape : ShapeT)
    (sqi : Int) : Except String ViewInfo :=
  if view_type = kSqueeze then
    .ok ⟨view_type, shape, [], source_shape, none, [], sqi, none, none⟩
  else .error "TORCH_CHECK failed: view_type == Type::kSqueeze"

/-- `ViewInfo::ViewInfo(Type, Shape source_shape, std::vector<int64_t>
permutation)`: shape is `Permute::MakePermuteShape`;
`TORCH_CHECK(view_type == Type::kPermute)`. -/
def ViewInfo.mkPermute (view_type : Nat) (source_shape : ShapeT)
    (permutation : List Int) : Except String ViewInfo :=
  if view_type = kPermute then
    .ok ⟨view_type, MakePermuteShape source_shape permutation, [], source_shape,
      none, permutation, 0, none, none⟩
  else .error "TORCH_CHECK failed: view_type == Type::kPermute"

/-- `ViewInfo::ViewInfo(Type, const Shape&, SelectInfo)`: shape is
`Select::MakeSelectShape`; `TORCH_CHECK(view_type == Type::kSelect)`. -/
def ViewInfo.mkSelect (view_type : Nat) (source_shape : ShapeT)
    (sel : SelectInfo) : Except String ViewInfo :=
  if view_type = kSelect then
    .ok ⟨view_type,
      MakeSelectShape source_shape sel.dim sel.start sel.stop sel.stride,
      [], source_shape, some sel, [], 0, none, none⟩
  else .error "TORCH_CHECK failed: view_type == Type::kSelect"

/-- `ViewInfo::ViewInfo(Type, Shape, Shape, AsStridedInfo)`:
`TORCH_CHECK(view_type == Type::kAsStrided)`. -/
def ViewInfo.mkAsStrided (view_type : Nat) (shape source_shape : ShapeT)
    (asi : AsStridedInfo) : Except String ViewInfo :=
  if view_type = kAsStrided then
    .ok ⟨view_type, shape, [], source_shape, none, [], 0, some asi, none⟩
  else .error "TORCH_CHECK failed: view_type == Type::kAsStrided"

/-- `ViewInfo::ViewInfo(Type, const Shape&, DiagonalInfo)`: shape is
`Diagonal::MakeDiagonalShape`; `TORCH_CHECK(view_type == Type::kDiagonal)`. -/
def ViewInfo.mkDiagonal (view_type : Nat) (source_shape : ShapeT)
    (dia : DiagonalInfo) : Except String ViewInfo :=
  if view_type = kDiagonal then
    .ok ⟨view_type, MakeDiagonalShape source_shape dia.offset dia.dim1 dia.dim2,
      [], source_shape, none, [], 0, none, some dia⟩
  else .error "TORCH_CHECK failed: view_type == Type::kDiagonal"

/-- `ApplyViewInfo`: the forward dispatch switch.  Each case builds the
corresponding node from the current value; `kNoOp` passes the value
through; the `default` branch is the fatal
`TORCH_INTERNAL_ASSERT(false, "Invalid view type: ", ...)`. -/
def ApplyViewInfo (ir_value : Value) (vi : ViewInfo) : Except String Value :=
  if vi.view_type = kSelect then
    let s := vi.select.getD ⟨0, 0, 0, 0⟩
    .ok (.select ir_value s.dim s.start s.stop s.stride)
  else if vi.view_type = kNarrow then
    .ok (.narrow ir_value vi.indices vi.shape)
  else if vi.view_type = kNoOp then
    .ok ir_value
  else if vi.view_type = kPermute then
    .ok (.permute ir_value vi.permutation)
  else if vi.view_type = kReshape then
    .ok (.view ir_value vi.shape)
  else if vi.view_type = kResize then
    .ok (.resize ir_value vi.shape)
  else if vi.view_type = kSqueeze then
    .ok (.squeeze ir_value vi.squeeze_index)
  else if vi.view_type = kUnsqueeze then
    .ok (.unsqueeze ir_value vi.squeeze_index)
  else if vi.view_type = kAsStrided then
    let a := vi.as_strided.getD ⟨[], 0⟩
    .ok (.asStrided ir_value vi.shape a.stride a.offset)
  else if vi.view_type = kDiagonal then
    let d := vi.diagonal.getD ⟨0, 0, 0⟩
    .ok (.diagonal ir_value d.offset d.dim1 d.dim2)
  else
    .error ("Invalid view type: " ++ toString vi.view_type)

/-- `Alias::UpdateData`: a pending update value together with the transform
chain it was written through. -/
structure UpdateData where
  ir_value : Value
  view_infos : List ViewInfo
  deriving DecidableEq, Repr

/-- One step of the backward loop of `ApplyUpdate` at chain position i
(1-based): `root` is `ApplyUpdate`'s `ir_value` argument, `result` the
running value, `vi` is `view_infos[i-1]` and `tmp` is `tmp_values[i-1]`.
Note that the `kSqueeze` and `kUnsqueeze` branches of the source build
their node from `ir_value` (the root), not from `result`. -/
def ApplyUpdateStep (root result : Value) (vi : ViewInfo) (tmp : Value) :
    Except String Value :=
  if vi.view_type = kSelect then
    let s := vi.select.getD ⟨0, 0, 0, 0⟩
    .ok (.selectViewUpdate tmp result s.dim s.start s.stop s.stride)
  else if vi.view_type = kNarrow then
    .ok (.narrowViewUpdate tmp result vi.indices)
  else if vi.view_type = kNoOp then
    .ok result
  else if vi.view_type = kPermute then
    .ok (.permute result (InversePermutation vi.permutation))
  else if vi.view_type = kReshape then
    .ok (.view result vi.source_shape)
  else if vi.view_type = kResize then
    .ok (.resize result vi.source_shape)
  else if vi.view_type = kSqueeze then
    .ok (.unsqueeze root vi.squeeze_index)
  else if vi.view_type = kUnsqueeze then
    .ok (.squeeze root vi.squeeze_index)
  else if vi.view_type = kAsStrided then
    let a := vi.as_strided.getD ⟨[], 0⟩
    .ok (.asStridedViewUpdate tmp result vi.source_shape a.stride a.offset)
  else if vi.view_type = kDiagonal then
    let d := vi.diagonal.getD ⟨0, 0, 0⟩
    .ok (.diagonalViewUpdate tmp result d.offset d.dim1 d.dim2)
  else
    .error ("Invalid view type: " ++ toString vi.view_type)

/-- The forward pass of `ApplyUpdate`: `tmp_values`, the list starting at
`ir_value` followed by each intermediate of applying the chain in order. -/
def ForwardValues (ir_value : Value) : List ViewInfo → Except String (List Value)
  | [] => .ok [ir_value]
  | vi :: rest => do
      let next ← ApplyViewInfo ir_value vi
      let tail ← ForwardValues next rest
      pure (ir_value :: tail)

/-- The backward pass of `ApplyUpdate`: fold `ApplyUpdateStep` over the
(descriptor, tmp-predecessor) pairs, given in reverse chain order. -/
def BackwardPass (root : Value) (result : Value) :
    List (ViewInfo × Value) → Except String Value
  | [] => .ok result
  | (vi, tmp) :: rest => do
      let r ← ApplyUpdateStep root result vi tmp
      BackwardPass root r rest

/-- `ApplyUpdate(ir_value, update_data)`: forward pass recording
`tmp_values`, then the backward loop from `i = n` down to `1`, starting at
the update's value. -/
def ApplyUpdate (ir_value : Value) (ud : UpdateData) : Except String Value := do
  let tmps ← ForwardValues ir_value ud.view_infos
  BackwardPass ir_value ud.ir_value ((ud.view_infos.zip tmps).reverse)

/-- `Alias`: the root IR value, the pending-update queue and the generation
counter.  Mutation is modelled by returning the new state. -/
structure Alias where
  root_ir_value : Value
  updates : List UpdateData
  generation : Nat
  deriving DecidableEq, Repr

/-- `Alias::Update`: coalesce into the last queue entry when its chain is
structurally equal to the given one (keeping that entry's own chain and
replacing only its value), otherwise append; always bump `generation`. -/
def Alias.Update (a : Alias) (ir_value : Value) (view_infos : List ViewInfo) :
    Alias :=
  match a.updates.getLast? with
  | some last =>
      if last.view_infos = view_infos then
        ⟨a.root_ir_value, a.updates.dropLast ++ [⟨ir_value, last.view_infos⟩],
          a.generation + 1⟩
      else
        ⟨a.root_ir_value, a.updates ++ [⟨ir_value, view_infos⟩], a.generation + 1⟩
  | none =>
      ⟨a.root_ir_value, a.updates ++ [⟨ir_value, view_infos⟩], a.generation + 1⟩

/-- The replay loop of `Alias::SyncUpdateOperations`: fold `ApplyUpdate`
over the queue in enqueue order, threading the root value. -/
def SyncLoop (root : Value) : List UpdateData → Except String Value
  | [] => .ok root
  | ud :: rest => do
      let r ← ApplyUpdate root ud
      SyncLoop r rest

/-- `Alias::SyncUpdateOperations`: replay all pending updates into
`root_ir_value`, clear the queue, return the new root (paired here with
the new alias state). -/
def Alias.SyncUpdateOperations (a : Alias) : Except String (Value × Alias) := do
  let root ← SyncLoop a.root_ir_value a.updates
  pure (root, ⟨root, [], a.generation⟩)

/-- `LazyView`: transform chain, shape, and the cached resolution.
Modelled from the spec: the header's cache fields (not part of the
provided sources) are a possibly-null cached `ir_value_` and a cached
`generation_` defaulting to 0; the alias reference is modelled by passing
the `Alias` state explicitly to each operation. -/
structure LazyView where
  view_infos : List ViewInfo
  shape : ShapeT
  ir_value : Option Value
  generation : Nat
  deriving DecidableEq, Repr

/-- `LazyView::LazyView(Shape, alias, ViewInfo)`: singleton chain, no cache. -/
def LazyView.ofViewInfo (shape : ShapeT) (view_info : ViewInfo) : LazyView :=
  ⟨[view_info], shape, none, 0⟩

/-- `LazyView::LazyView(Shape, alias, std::vector<ViewInfo>)`: full chain,
no cache. -/
def LazyView.ofChain (shape : ShapeT) (view_infos : List ViewInfo) : LazyView :=
  ⟨view_infos, shape, none, 0⟩

/-- Modelled from the spec: `LazyView::IsUpToDate` (header, not part of the
provided sources) — a View is up to date iff it has a cached value and its
cached generation equals the alias's generation (initial state is Stale). -/
def LazyView.IsUpToDate (v : LazyView) (a : Alias) : Bool :=
  v.ir_value.isSome && v.generation == a.generation

/-- `LazyView::Update`: delegate to the alias, keyed by this view's chain. -/
def LazyView.Update (v : LazyView) (a : Alias) (ir_value : Value) : Alias :=
  a.Update ir_value v.view_infos

/-- `LazyView::CreateSubView`: a new view over the same alias whose chain is
this view's chain with the descriptor appended; no resolution happens. -/
def LazyView.CreateSubView (v : LazyView) (shape : ShapeT) (view_info : ViewInfo) :
    LazyView :=
  ⟨v.view_infos ++ [view_info], shape, none, 0⟩

/-- The forward-only chain application loop of `LazyView::GetViewIrNode`. -/
def ApplyChain (v : Value) : List ViewInfo → Except String Value
  | [] => .ok v
  | vi :: rest => do
      let next ← ApplyViewInfo v vi
      ApplyChain next rest

/-- `LazyView::GetViewIrNode` (the spec's `Resolve`): fast path returns the
cached value with `changed = false`; otherwise sync the alias, apply this
view's own chain forward to the synced root, cache the result together
with the alias's generation, and return it with `changed = true`. -/
def LazyView.GetViewIrNode (v : LazyView) (a : Alias) :
    Except String ((Value × Bool) × LazyView × Alias) :=
  if v.IsUpToDate a then
    .ok ((v.ir_value.getD (.leaf 0), false), v, a)
  else do
    let (root, a') ← a.SyncUpdateOperations
    let upd ← ApplyChain root v.view_infos
    pure ((upd, true), ⟨v.view_infos, v.shape, some upd, a'.generation⟩, a')

/-- `Scalar` TS node: a scalar value broadcast to a shape; the `at::Scalar`
payload is modelled as an `Int` and the dtype of the second `Equal`
overload as a `Nat` code. -/
structure Scalar where
  value : Int
  deriving DecidableEq, Repr

/-- `Scalar::Equal(const at::Scalar&, Shape)`:
`TORCH_INTERNAL_ASSERT(false, "Reusing Scalar nodes is unsupported")`;
the `return false` after it is unreachable. -/
def Scalar.EqualShape (node : Scalar) (value : Int) (shape : ShapeT) :
    Except String Bool :=
  .error "Reusing Scalar nodes is unsupported"

/-- `Scalar::Equal(const at::Scalar&, c10::ScalarType)`: the second
overload, identical fatal assertion. -/
def Scalar.EqualType (node : Scalar) (value : Int) (stype : Nat) :
    Except String Bool :=
  .error "Reusing Scalar nodes is unsupported"

/-- A concrete Squeeze descriptor (axis 1, shape `[2,3]` from source
`[2,1,3]`), exactly what `ViewInfo.mkSqueeze kSqueeze [2,3] [2,1,3] 1`
produces. -/
def squeezeVI : ViewInfo :=
  ⟨kSqueeze, [2, 3], [], [2, 1, 3], none, [], 1, none, none⟩

/-- A descriptor whose kind code lies outside the ten declared variants. -/
def badVI : ViewInfo := ⟨42, [], [], [], none, [], 0, none, none⟩

/-- A NoOp descriptor over shape `[5]`. -/
def noopVI : ViewInfo := ViewInfo.mkBase kNoOp [5] [5]

/-- An alias with one pending empty-chain update, generation 3. -/
def aliasW : Alias := ⟨.leaf 0, [⟨.leaf 5, []⟩], 3⟩

/-- An alias with two pending empty-chain updates, generation 7. -/
def aliasS : Alias := ⟨.leaf 0, [⟨.leaf 1, []⟩, ⟨.leaf 2, []⟩], 7⟩

/-- An alias with one pending empty-chain update, generation 4. -/
def aliasR : Alias := ⟨.leaf 0, [⟨.leaf 3, []⟩], 4⟩

/-- An alias with no pending updates, generation 5. -/
def aliasT : Alias := ⟨.leaf 0, [], 5⟩

/-- A direct (empty-chain) view with no cache. -/
def viewW : LazyView := ⟨[], [7], none, 0⟩

/-- A direct view whose cache is current for `aliasR` (generation 4). -/
def viewF : LazyView := ⟨[], [7], some (.leaf 9), 4⟩

/-- A direct view with no cache, used as the writing view. -/
def viewA : LazyView := ⟨[], [9], none, 0⟩

/-- A direct view whose cache is current for `aliasT` (generation 5). -/
def viewB : LazyView := ⟨[], [9], some (.leaf 9), 5⟩

/-- C1: the claim says the backward pass of `ApplyUpdate` feeds the running
result into every inverse step, for every kind including Squeeze and
Unsqueeze.  The code does not: the `kSqueeze` (and `kUnsqueeze`) backward
branches build their node from `ir_value`, the original root, so replaying
the update `⟨leaf 1, [Squeeze(axis 1)]⟩` against root `leaf 0` yields
`unsqueeze (leaf 0) 1` — the update value `leaf 1` is discarded entirely,
instead of the `unsqueeze (leaf 1) 1` the claim requires. -/
theorem applyUpdate_squeeze_discards_update :
    ApplyUpdate (.leaf 0) ⟨.leaf 1, [squeezeVI]⟩ = .ok (.unsqueeze (.leaf 0) 1) ∧
    Value.unsqueeze (.leaf 0) 1 ≠ Value.unsqueeze (.leaf 1) 1 :=
  ⟨rfl, by decide⟩

/-- C9: replaying a pending update whose transform chain is empty sets the
root value to exactly the update's value, discarding the previous root:
`ApplyUpdate root ⟨u, []⟩ = .ok u`, and inside the sync loop such an update
makes the rest of the replay continue from `u`, independent of `root`. -/
theorem empty_chain_update_overwrites_root :
    (∀ (root u : Value), ApplyUpdate root ⟨u, []⟩ = .ok u) ∧
    (∀ (root u : Value) (rest : List UpdateData),
        SyncLoop root (⟨u, []⟩ :: rest) = SyncLoop u rest) :=
  ⟨fun _ _ => rfl, fun _ _ _ => rfl⟩

/-- C10: both overloads of `Scalar::Equal` are a fatal assertion
("Reusing Scalar nodes is unsupported") for every node and every candidate
(value, shape) or (value, type); no boolean is ever returned, so node
reuse can never equate two scalar constants. -/
theorem scalar_equal_always_fatal :
    (∀ (n : Scalar) (v : Int) (sh : ShapeT),
        n.EqualShape v sh = .error "Reusing Scalar nodes is unsupported") ∧
    (∀ (n : Scalar) (v : Int) (t : Nat),
        n.EqualType v t = .error "Reusing Scalar nodes is unsupported") :=
  ⟨fun _ _ _ => rfl, fun _ _ _ => rfl⟩

/-- C8: every payload-carrying `ViewInfo` constructor fails fatally when the
supplied kind does not match the payload (before any resolution, since the
descriptor never comes into existence), and both dispatch switches fail
fatally, reporting the offending kind, when the kind lies outside the ten
declared variants; no recoverable value is produced in any of these cases. -/
theorem construction_and_dispatch_fatal :
    (∀ (t : Nat) (sh ssh : ShapeT) (sqi : Int), t ≠ kSqueeze →
        ViewInfo.mkSqueeze t sh ssh sqi =
          .error "TORCH_CHECK failed: view_type == Type::kSqueeze") ∧
    (∀ (t : Nat) (ssh : ShapeT) (perm : List Int), t ≠ kPermute →
        ViewInfo.mkPermute t ssh perm =
          .error "TORCH_CHECK failed: view_type == Type::kPermute") ∧
    (∀ (t : Nat) (ssh : ShapeT) (sel : SelectInfo), t ≠ kSelect →
        ViewInfo.mkSelect t ssh sel =
          .error "TORCH_CHECK failed: view_type == Type::kSelect") ∧
    (∀ (t : Nat) (sh ssh : ShapeT) (asi : AsStridedInfo), t ≠ kAsStrided →
        ViewInfo.mkAsStrided t sh ssh asi =
          .error "TORCH_CHECK failed: view_type == Type::kAsStrided") ∧
    (∀ (t : Nat) (ssh : ShapeT) (dia : DiagonalInfo), t ≠ kDiagonal →
        ViewInfo.mkDiagonal t ssh dia =
          .error "TORCH_CHECK failed: view_type == Type::kDiagonal") ∧
    (∀ (v : Value) (vi : ViewInfo), 10 ≤ vi.view_type →
        ApplyViewInfo v vi =
          .error ("Invalid view type: " ++ toString vi.view_type)) ∧
    (∀ (root res tmp : Value) (vi : ViewInfo), 10 ≤ vi.view_type →
        ApplyUpdateStep root res vi tmp =
          .error ("Invalid view type: " ++ toString vi.view_type)) := by
  refine ⟨?_, ?_, ?_, ?_, ?_, ?_, ?_⟩
  · intro t sh ssh sqi h
    simp [ViewInfo.mkSqueeze, h]
  · intro t ssh perm h
    simp [ViewInfo.mkPermute, h]
  · intro t ssh sel h
    simp [ViewInfo.mkSelect, h]
  · intro t sh ssh asi h
    simp [ViewInfo.mkAsStrided, h]
  · intro t ssh dia h
    simp [ViewInfo.mkDiagonal, h]
  · intro v vi h
    have h0 : vi.view_type ≠ kSelect := by simp only [kSelect]; omega
    have h1 : vi.view_type ≠ kNarrow := by simp only [kNarrow]; omega
    have h2 : vi.view_type ≠ kNoOp := by simp only [kNoOp]; omega
    have h3 : vi.view_type ≠ kPermute := by simp only [kPermute]; omega
    have h4 : vi.view_type ≠ kReshape := by simp only [kReshape]; omega
    have h5 : vi.view_type ≠ kResize := by simp only [kResize]; omega
    have h6 : vi.view_type ≠ kSqueeze := by simp only [kSqueeze]; omega
    have h7 : vi.view_type ≠ kUnsqueeze := by simp only [kUnsqueeze]; omega
    have h8 : vi.view_type ≠ kAsStrided := by simp only [kAsStrided]; omega
    have h9 : vi.view_type ≠ kDiagonal := by simp only [kDiagonal]; omega
    simp [ApplyViewInfo, h0, h1, h2, h3, h4, h5, h6, h7, h8, h9]
  · intro root res tmp vi h
    have h0 : vi.view_type ≠ kSelect := by simp only [kSelect]; omega
    have h1 : vi.view_type ≠ kNarrow := by simp only [kNarrow]; omega
    have h2 : vi.view_type ≠ kNoOp := by simp only [kNoOp]; omega
    have h3 : vi.view_type ≠ kPermute := by simp only [kPermute]; omega
    have h4 : vi.view_type ≠ kReshape := by simp only [kReshape]; omega
    have h5 : vi.view_type ≠ kResize := by simp only [kResize]; omega
    have h6 : vi.view_type ≠ kSqueeze := by simp only [kSqueeze]; omega
    have h7 : vi.view_type ≠ kUnsqueeze := by simp only [kUnsqueeze]; omega
    have h8 : vi.view_type ≠ kAsStrided := by simp only [kAsStrided]; omega
    have h9 : vi.view_type ≠ kDiagonal := by simp only [kDiagonal]; omega
    simp [ApplyUpdateStep, h0, h1, h2, h3, h4, h5, h6, h7, h8, h9]

/-- Witness for C8: a Permute construction requested with kind `kSelect`
fails with the construction check, and both dispatches fail on the
out-of-enum kind 42, reporting it. -/
theorem construction_and_dispatch_fatal_witness :
    ViewInfo.mkPermute kSelect [2, 3] [1, 0] =
      .error "TORCH_CHECK failed: view_type == Type::kPermute" ∧
    ApplyViewInfo (.leaf 0) badVI =
      .error ("Invalid view type: " ++ toString badVI.view_type) ∧
    ApplyUpdateStep (.leaf 0) (.leaf 1) badVI (.leaf 2) =
      .error ("Invalid view type: " ++ toString badVI.view_type) :=
  ⟨construction_and_dispatch_fatal.2.1 kSelect [2, 3] [1, 0] (by decide),
   construction_and_dispatch_fatal.2.2.2.2.2.1 (.leaf 0) badVI (by decide),
   construction_and_dispatch_fatal.2.2.2.2.2.2 (.leaf 0) (.leaf 1) (.leaf 2) badVI
     (by decide)⟩

/-- C2: `Alias::Update` coalesces when the queue is non-empty and its last
entry's chain equals the given one — the last entry's value is replaced in
place and the queue length is unchanged — and appends a new
`{update_value, transform_chain}` entry otherwise (last entry with a
different chain, or empty queue); `generation` rises by exactly 1 in every
case. -/
theorem alias_update_coalesces_or_appends (a : Alias) (v : Value)
    (chain : List ViewInfo) :
    ((a.Update v chain).generation = a.generation + 1) ∧
    (∀ last, a.updates.getLast? = some last → last.view_infos = chain →
        (a.Update v chain).updates = a.updates.dropLast ++ [⟨v, chain⟩] ∧
        (a.Update v chain).updates.length = a.updates.length) ∧
    (∀ last, a.updates.getLast? = some last → last.view_infos ≠ chain →
        (a.Update v chain).updates = a.updates ++ [⟨v, chain⟩]) ∧
    (a.updates = [] → (a.Update v chain).updates = a.updates ++ [⟨v, chain⟩]) := by
  refine ⟨?_, ?_, ?_, ?_⟩
  · unfold Alias.Update
    cases hL : a.updates.getLast? with
    | none => rfl
    | some last =>
        dsimp only
        split <;> rfl
  · intro last hL hEq
    have hne : a.updates ≠ [] := by
      intro hnil
      rw [hnil] at hL
      cases hL
    have hlen : 0 < a.updates.length := List.length_pos.mpr hne
    subst hEq
    constructor
    · simp [Alias.Update, hL]
    · simp [Alias.Update, hL, List.length_dropLast]
      omega
  · intro last hL hNe
    unfold Alias.Update
    rw [hL]
    simp only [if_neg hNe]
  · intro hnil
    unfold Alias.Update
    rw [hnil]
    rfl

/-- Witness for C2: on an alias whose single pending entry has the empty
chain, an empty-chain update replaces that entry in place and keeps the
queue length at 1. -/
theorem alias_update_coalesces_witness :
    (aliasW.Update (.leaf 7) []).updates = aliasW.updates.dropLast ++ [⟨.leaf 7, []⟩] ∧
    (aliasW.Update (.leaf 7) []).updates.length = aliasW.updates.length :=
  (alias_update_coalesces_or_appends aliasW (.leaf 7) []).2.1 ⟨.leaf 5, []⟩ rfl rfl

/-- C3: `Alias::SyncUpdateOperations` replays the pending updates against
`root_ir_value` in enqueue order (the sync loop applies the head — the
oldest entry — first and feeds its result to the rest), clears the queue,
stores and returns the new root while leaving `generation` unchanged; with
no pending updates it returns `root_ir_value` and leaves the state as it
was. -/
theorem sync_replays_in_enqueue_order (a : Alias) :
    (∀ (r : Value) (a' : Alias), a.SyncUpdateOperations = .ok (r, a') →
        SyncLoop a.root_ir_value a.updates = .ok r ∧
        a'.root_ir_value = r ∧ a'.updates = [] ∧ a'.generation = a.generation) ∧
    (∀ (root : Value) (ud : UpdateData) (rest : List UpdateData),
        SyncLoop root (ud :: rest) =
          (ApplyUpdate root ud).bind fun r => SyncLoop r rest) ∧
    (a.updates = [] → a.SyncUpdateOperations = .ok (a.root_ir_value, a)) := by
  refine ⟨?_, fun root ud rest => rfl, ?_⟩
  · intro r a' h
    unfold Alias.SyncUpdateOperations at h
    cases hs : SyncLoop a.root_ir_value a.updates with
    | error e =>
        rw [hs] at h
        cases h
    | ok root =>
        rw [hs] at h
        replace h : (Except.ok (root, (⟨root, [], a.generation⟩ : Alias)) :
            Except String (Value × Alias)) = .ok (r, a') := h
        injection h with h
        injection h with hr ha
        subst hr
        subst ha
        exact ⟨rfl, rfl, rfl, rfl⟩
  · intro hnil
    obtain ⟨rv, upd, g⟩ := a
    replace hnil : upd = [] := hnil
    subst hnil
    rfl

/-- Witness for C3: replaying the alias with queue
`[⟨leaf 1, []⟩, ⟨leaf 2, []⟩]` folds oldest-first, ending at `leaf 2`,
with the queue cleared and the generation kept at 7. -/
theorem sync_replays_witness :
    SyncLoop aliasS.root_ir_value aliasS.updates = .ok (.leaf 2) ∧
    (⟨.leaf 2, [], 7⟩ : Alias).root_ir_value = .leaf 2 ∧
    (⟨.leaf 2, [], 7⟩ : Alias).updates = [] ∧
    (⟨.leaf 2, [], 7⟩ : Alias).generation = aliasS.generation :=
  (sync_replays_in_enqueue_order aliasS).1 (.leaf 2) ⟨.leaf 2, [], 7⟩ rfl

/-- C4: `LazyView::GetViewIrNode` (`Resolve`) returns the cached value with
`changed = false` and leaves both states untouched when the cached
generation matches the alias's generation; otherwise it first syncs the
alias's pending updates, applies this view's own chain forward to the
synced root, caches that result together with the alias's generation, and
returns it with `changed = true`. -/
theorem resolve_fast_path_and_recompute (v : LazyView) (a : Alias) :
    (∀ (val : Value), v.ir_value = some val → v.generation = a.generation →
        v.GetViewIrNode a = .ok ((val, false), v, a)) ∧
    (v.IsUpToDate a = false →
        ∀ (root : Value) (a' : Alias) (w : Value),
          a.SyncUpdateOperations = .ok (root, a') →
          ApplyChain root v.view_infos = .ok w →
          v.GetViewIrNode a =
            .ok ((w, true), ⟨v.view_infos, v.shape, some w, a'.generation⟩, a')) := by
  constructor
  · intro val hv hg
    have hup : v.IsUpToDate a = true := by
      simp [LazyView.IsUpToDate, hv, hg]
    unfold LazyView.GetViewIrNode
    rw [if_pos hup, hv]
    rfl
  · intro hst root a' w hs hc
    have hup : ¬ v.IsUpToDate a = true := by
      simp [hst]
    unfold LazyView.GetViewIrNode
    rw [if_neg hup, hs]
    change Except.bind (ApplyChain root v.view_infos) _ = _
    rw [hc]
    rfl

/-- Witness for C4: the fresh view `viewF` resolves from its cache with
`changed = false`, and the stale cacheless view `viewW` over the alias
with one pending write resolves through sync to the written value with
`changed = true`, caching it at generation 4. -/
theorem resolve_fast_path_and_recompute_witness :
    viewF.GetViewIrNode aliasR = .ok ((.leaf 9, false), viewF, aliasR) ∧
    viewW.GetViewIrNode aliasR =
      .ok ((.leaf 3, true),
        ⟨viewW.view_infos, viewW.shape, some (.leaf 3),
          (⟨.leaf 3, [], 4⟩ : Alias).generation⟩,
        ⟨.leaf 3, [], 4⟩) :=
  ⟨(resolve_fast_path_and_recompute viewF aliasR).1 (.leaf 9) rfl rfl,
   (resolve_fast_path_and_recompute viewW aliasR).2 rfl (.leaf 3)
     ⟨.leaf 3, [], 4⟩ (.leaf 3) rfl rfl⟩

/-- C5: resolving twice with no intervening update anywhere on the alias
returns the same value both times and the second call reports
`changed = false`: whatever states a successful `GetViewIrNode` produces,
running it again on those states yields the same value, `false`, and the
same states. -/
theorem resolve_idempotent (v : LazyView) (a : Alias) (val : Value) (c : Bool)
    (v' : LazyView) (a' : Alias)
    (h : v.GetViewIrNode a = .ok ((val, c), v', a')) :
    v'.GetViewIrNode a' = .ok ((val, false), v', a') := by
  unfold LazyView.GetViewIrNode at h
  by_cases hup : v.IsUpToDate a = true
  · rw [if_pos hup] at h
    injection h with h
    injection h with h1 h2
    injection h2 with hv ha
    injection h1 with hval hc
    subst hv
    subst ha
    unfold LazyView.GetViewIrNode
    rw [if_pos hup, hval]
  · rw [if_neg hup] at h
    cases hs : a.SyncUpdateOperations with
    | error e =>
        rw [hs] at h
        exact Except.noConfusion h
    | ok p =>
        obtain ⟨root, a₀⟩ := p
        rw [hs] at h
        replace h : (Except.bind (ApplyChain root v.view_infos) (fun upd =>
            pure ((upd, true),
              (⟨v.view_infos, v.shape, some upd, a₀.generation⟩ : LazyView),
              a₀)) :
            Except String ((Value × Bool) × LazyView × Alias)) =
            .ok ((val, c), v', a') := h
        cases hc : ApplyChain root v.view_infos with
        | error e =>
            rw [hc] at h
            exact Except.noConfusion h
        | ok w =>
            rw [hc] at h
            replace h : (Except.ok ((w, true),
                (⟨v.view_infos, v.shape, some w, a₀.generation⟩ : LazyView),
                a₀) :
                Except String ((Value × Bool) × LazyView × Alias)) =
                .ok ((val, c), v', a') := h
            injection h with h
            injection h with h1 h2
            injection h2 with hv ha
            injection h1 with hval hc2
            subst hv
            subst ha
            subst hval
            have hup' : LazyView.IsUpToDate
                ⟨v.view_infos, v.shape, some w, a₀.generation⟩ a₀ = true := by
              simp [LazyView.IsUpToDate]
            unfold LazyView.GetViewIrNode
            rw [if_pos hup']
            rfl

/-- Witness for C5: resolving `viewW` over `aliasR` yields `leaf 3` with
`changed = true`; resolving the resulting view over the resulting alias
yields `leaf 3` again with `changed = false`. -/
theorem resolve_idempotent_witness :
    LazyView.GetViewIrNode ⟨[], [7], some (.leaf 3), 4⟩ ⟨.leaf 3, [], 4⟩ =
      .ok ((.leaf 3, false), ⟨[], [7], some (.leaf 3), 4⟩, ⟨.leaf 3, [], 4⟩) :=
  resolve_idempotent viewW aliasR (.leaf 3) true
    ⟨[], [7], some (.leaf 3), 4⟩ ⟨.leaf 3, [], 4⟩ rfl

/-- C6: `CreateSubView` on a view with chain `[p1]` and descriptor `p2`
yields a view whose chain is exactly `[p1, p2]` with no cached resolution
(creation is purely lazy and never touches the alias state), and resolving
it against any alias state gives the same result as resolving a view
constructed directly with chain `[p1, p2]`. -/
theorem create_subview_composes (v : LazyView) (p1 p2 : ViewInfo)
    (sh : ShapeT) (h : v.view_infos = [p1]) :
    (v.CreateSubView sh p2).view_infos = [p1, p2] ∧
    (v.CreateSubView sh p2).ir_value = none ∧
    ∀ (a : Alias), (v.CreateSubView sh p2).GetViewIrNode a =
        (LazyView.ofChain sh [p1, p2]).GetViewIrNode a := by
  have hsub : v.CreateSubView sh p2 = LazyView.ofChain sh [p1, p2] := by
    unfold LazyView.CreateSubView LazyView.ofChain
    rw [h]
    rfl
  rw [hsub]
  exact ⟨rfl, rfl, fun a => rfl⟩

/-- Witness for C6: a sub-view built from a singleton NoOp chain with a
second NoOp descriptor has chain `[noopVI, noopVI]` and resolves exactly
like the directly constructed view over a concrete alias. -/
theorem create_subview_composes_witness :
    ((LazyView.ofViewInfo [5] noopVI).CreateSubView [5] noopVI).view_infos =
      [noopVI, noopVI] ∧
    ((LazyView.ofViewInfo [5] noopVI).CreateSubView [5] noopVI).GetViewIrNode
        ⟨.leaf 0, [], 1⟩ =
      (LazyView.ofChain [5] [noopVI, noopVI]).GetViewIrNode ⟨.leaf 0, [], 1⟩ :=
  ⟨(create_subview_composes (LazyView.ofViewInfo [5] noopVI) noopVI noopVI
      [5] rfl).1,
   (create_subview_composes (LazyView.ofViewInfo [5] noopVI) noopVI noopVI
      [5] rfl).2.2 ⟨.leaf 0, [], 1⟩⟩

/-- C7: after any view `A` sharing the alias performs an update, a
previously fresh view `B` (cached value present, cached generation equal
to the alias's) is stale — the generation bump makes `IsUpToDate` false —
and whenever its next resolve succeeds it reports `changed = true`. -/
theorem staleness_after_sibling_update (A B : LazyView) (a : Alias)
    (u val : Value) (hB : B.ir_value = some val)
    (hg : B.generation = a.generation) :
    B.IsUpToDate (A.Update a u) = false ∧
    ∀ (w : Value) (c : Bool) (B' : LazyView) (a' : Alias),
      B.GetViewIrNode (A.Update a u) = .ok ((w, c), B', a') → c = true := by
  have hgen : (A.Update a u).generation = a.generation + 1 := by
    unfold LazyView.Update Alias.Update
    cases a.updates.getLast? with
    | none => rfl
    | some last =>
        dsimp only
        split <;> rfl
  have hfalse : B.IsUpToDate (A.Update a u) = false := by
    unfold LazyView.IsUpToDate
    rw [hgen, hg]
    simp
  refine ⟨hfalse, ?_⟩
  intro w c B' a' h
  unfold LazyView.GetViewIrNode at h
  rw [if_neg (by simp [hfalse])] at h
  cases hs : (A.Update a u).SyncUpdateOperations with
  | error e =>
      rw [hs] at h
      exact Except.noConfusion h
  | ok p =>
      obtain ⟨root, a₀⟩ := p
      rw [hs] at h
      replace h : (Except.bind (ApplyChain root B.view_infos) (fun upd =>
          pure ((upd, true),
            (⟨B.view_infos, B.shape, some upd, a₀.generation⟩ : LazyView),
            a₀)) :
          Except String ((Value × Bool) × LazyView × Alias)) =
          .ok ((w, c), B', a') := h
      cases hc : ApplyChain root B.view_infos with
      | error e =>
          rw [hc] at h
          exact Except.noConfusion h
      | ok w₀ =>
          rw [hc] at h
          replace h : (Except.ok ((w₀, true),
              (⟨B.view_infos, B.shape, some w₀, a₀.generation⟩ : LazyView),
              a₀) :
              Except String ((Value × Bool) × LazyView × Alias)) =
              .ok ((w, c), B', a') := h
          injection h with h
          injection h with h1 h2
          injection h1 with hval hcval
          exact hcval.symm

/-- Witness for C7: with `viewB` fresh for `aliasT` (generation 5), after
`viewA` writes `leaf 3` the view `viewB` is no longer up to date, and its
next resolve — which succeeds and returns `leaf 3` — reports
`changed = true`. -/
theorem staleness_after_sibling_update_witness :
    viewB.IsUpToDate (viewA.Update aliasT (.leaf 3)) = false ∧ true = true :=
  ⟨(staleness_after_sibling_update viewA viewB aliasT (.leaf 3) (.leaf 9)
      rfl rfl).1,
   (staleness_after_sibling_update viewA viewB aliasT (.leaf 3) (.leaf 9)
      rfl rfl).2 (.leaf 3) true ⟨[], [9], some (.leaf 3), 6⟩ ⟨.leaf 3, [], 6⟩
      rfl⟩

end TorchLazy
